import Mathlib

/-!
Shallow embedding of the recorder session's command dispatch pipeline
(`RecorderApp` in the repository's recorder app module): the UI event
dispatcher `_handleUIEvent`, the command executor paths `_executeUIAction`,
`_executeUIExtraction`, `_executeArbitraryCode`, the synthetic action builder
`_buildSyntheticAction`, the extraction dispatcher `_performExtraction`, the
source regeneration loop `_updateActions`, and the signal attachment handler
`_onSignalAdded`.

Conventions of the embedding:
- JS exceptions / promise rejections are `Except.error` carrying the message.
- The browser boundary (performing an action, running a frame query,
  evaluating arbitrary code) is passed in as an explicit outcome/oracle, so
  theorems quantify over every possible behaviour of the live page.
- Calls into the temporary call log (`pushTemporaryCallLog`,
  `updateTemporaryCallLog` on the `Recorder`) are recorded as a trace of
  `LogOp` values in the order the executor issues them.
- Outbound UI pushes (`_sendExtractionResultToUI`, `_pushAllSources`, ...)
  are fire-and-forget calls whose delivery failures the source swallows; they
  are not modelled since no claim depends on their payloads.
-/

namespace RecorderSpec

/-- Signal payloads are opaque to the recorder app: it only ever stores and
forwards them. -/
abbrev Signal := String

/-- A tracked page of the inspected context; identified by its guid. -/
structure Page where
  guid : String

/-- A frame of a tracked page; `frame._page` is the page it belongs to. -/
structure Frame where
  page : Page

/-- `actions.FrameDescription`. -/
structure FrameDescription where
  pageGuid : String
  pageAlias : String
  framePath : List String

/-- `actions.Action`: a record with a `name` tag, the shared `selector` and
`signals` fields, and the variant-specific fields (absent fields are `none`),
mirroring the object literals `_buildSyntheticAction` and the executors build. -/
structure Action where
  name : String
  selector : String
  signals : List Signal
  text : Option String := none
  key : Option String := none
  modifiers : Option Nat := none
  button : Option String := none
  clickCount : Option Nat := none
  options : Option (List String) := none
  args : List String := []

/-- `actions.ActionInContext`. -/
structure ActionInContext where
  frame : FrameDescription
  action : Action
  startTime : Nat

/-- `actions.SignalInContext`. -/
structure SignalInContext where
  frame : FrameDescription
  signal : Signal

/-- The whitespace characters JS `String.prototype.trim` strips (the subset
relevant to these sources). -/
def jsWhitespace (c : Char) : Bool :=
  c == ' ' || c == '\t' || c == '\n' || c == '\r'

/-- JS `s.trim()`: strip leading and trailing whitespace, expressed
structurally over the character list. -/
def jsTrim (s : String) : String :=
  ⟨((s.data.dropWhile jsWhitespace).reverse.dropWhile jsWhitespace).reverse⟩

/-- JS test `!s?.trim()`: true when the string is nullish or trims to the
empty string (the empty string is falsy). -/
def strBlank : Option String → Bool
  | none => true
  | some s => jsTrim s == ""

/-- JS `s || d` for a possibly-absent string: the empty string is falsy. -/
def jsOrString (s : Option String) (d : String) : String :=
  match s with
  | none => d
  | some v => if v == "" then d else v

/-- JS `args[0] || d` for a string argument array. -/
def jsHeadOr (args : List String) (d : String) : String :=
  jsOrString args.head? d

/-- `CallLogStatus` from the recorder types. -/
inductive CallLogStatus where
  | inProgress
  | done
  | error
  | paused

/-- One call into the temporary call log kept by the `Recorder`. -/
inductive LogOp where
  /-- `pushTemporaryCallLog(entry)`: allocates `id` and inserts a fresh entry
  with status in-progress. -/
  | create (id : Nat) (entry : ActionInContext)
  /-- `updateTemporaryCallLog(id, status, payload)`. -/
  | update (id : Nat) (status : CallLogStatus) (payload : Option String)

/-- Result of one executor invocation: the settled value of its promise plus
the trace of temporary call-log operations it issued, in order. -/
structure ExecResult (α : Type) where
  result : Except String α
  log : List LogOp

/-- Modelled from the spec: `Recorder.frameForSelector` lives in the recorder
core module, which is not among the sources here (only its callers are). Per
the spec, resolution scans the known selector against live frames of the
session's tracked pages and, when no page is tracked, fails with
"no pages available"; when pages exist it yields a frame of a tracked page
(the design notes describe it as the main frame of the execution context,
hence the first tracked page's frame here). -/
def frameForSelector (pageAliases : List (Page × String)) (selector : String) :
    Except String Frame :=
  match pageAliases with
  | [] => Except.error "no pages available"
  | (p, _) :: _ => Except.ok { page := p }

/-- `pageAliases.get(page)`: the alias the session tracks for this page. -/
def lookupAlias (pageAliases : List (Page × String)) (p : Page) : Option String :=
  (pageAliases.find? (fun kv => kv.fst.guid == p.guid)).map (fun kv => kv.snd)

/-- `PerformActionParams` (recorder types). `locator` is optional here to model
an absent field of the untyped payload. -/
structure PerformActionParams where
  locator : Option String := none
  action : String := ""
  args : List String := []

/-- `PerformExtractionParams` (recorder types). -/
structure PerformExtractionParams where
  locator : Option String := none
  extraction : String := ""
  args : List String := []

/-- `ExecuteArbitraryCodeParams` (recorder types). -/
structure ExecuteArbitraryCodeParams where
  code : Option String := none

/-- The action kinds the inbound protocol type `PerformActionParams.action`
declares as valid (recorderTypes.d.ts). -/
def declaredPerformActionKinds : List String :=
  ["click", "dblclick", "fill", "press", "check", "uncheck", "selectOption",
   "hover", "scroll"]

/-- The action kinds `_buildSyntheticAction` actually accepts (its switch
cases). -/
def supportedSyntheticActions : List String :=
  ["click", "dblclick", "fill", "press", "check", "uncheck", "selectOption"]

/-- `_buildSyntheticAction(selector, actionName, args)`: the switch over the
action name; its default case throws "Unsupported action". -/
def buildSyntheticAction (selector : String) (actionName : String)
    (args : List String) : Except String Action :=
  if actionName == "click" then
    Except.ok { name := "click", selector := selector, signals := [],
                modifiers := some 0, button := some "left", clickCount := some 1 }
  else if actionName == "dblclick" then
    Except.ok { name := "click", selector := selector, signals := [],
                modifiers := some 0, button := some "left", clickCount := some 2 }
  else if actionName == "fill" then
    Except.ok { name := "fill", selector := selector, signals := [],
                text := some (jsHeadOr args "") }
  else if actionName == "press" then
    Except.ok { name := "press", selector := selector, signals := [],
                key := some (jsHeadOr args "Enter"), modifiers := some 0 }
  else if actionName == "check" then
    Except.ok { name := "check", selector := selector, signals := [] }
  else if actionName == "uncheck" then
    Except.ok { name := "uncheck", selector := selector, signals := [] }
  else if actionName == "selectOption" then
    Except.ok { name := "select", selector := selector, signals := [],
                options := some (match args.head? with
                  | none => []
                  | some v => if v == "" then [] else [v]) }
  else
    Except.error ("Unsupported action: " ++ actionName)

/-- `_executeUIAction(params)`. `performOutcome` is the settled result the
environment gives for `performAction(pageAliases, actionInContext)` awaiting
the live page. The trailing `catch (error) \x7b throw error; \x7d` of the
source is the identity on the propagated failure. -/
def executeUIAction (pageAliases : List (Page × String)) (nextId : Nat)
    (performOutcome : Except String Unit) (now : Nat)
    (params : PerformActionParams) : ExecResult Unit :=
  if strBlank params.locator then
    { result := Except.error "Locator is required", log := [] }
  else
    let locator := params.locator.getD ""
    if pageAliases.isEmpty then
      { result := Except.error "No pages available for action execution", log := [] }
    else
      match frameForSelector pageAliases locator with
      | Except.error e => { result := Except.error e, log := [] }
      | Except.ok frame =>
        match buildSyntheticAction locator params.action params.args with
        | Except.error e => { result := Except.error e, log := [] }
        | Except.ok actionObject =>
          let frameDescription : FrameDescription :=
            { pageGuid := frame.page.guid
              pageAlias := jsOrString (lookupAlias pageAliases frame.page) "page"
              framePath := [] }
          let actionInContext : ActionInContext :=
            { frame := frameDescription, action := actionObject, startTime := now }
          let callLogId := nextId
          match performOutcome with
          | Except.ok _ =>
            { result := Except.ok ()
              log := [LogOp.create callLogId actionInContext,
                      LogOp.update callLogId CallLogStatus.done none] }
          | Except.error msg =>
            { result := Except.error msg
              log := [LogOp.create callLogId actionInContext,
                      LogOp.update callLogId CallLogStatus.error (some msg)] }

/-- The read-only frame query `_performExtraction` dispatches for a supported
extraction kind, mirroring the frame method and options it calls. -/
inductive FrameQuery where
  | innerText (selector : String) (strict : Bool)
  | textContent (selector : String) (strict : Bool)
  | getAttribute (selector : String) (attributeName : String) (strict : Bool)
  | isVisible (selector : String) (strict : Bool)
  | isEnabled (selector : String) (strict : Bool)
  | isChecked (selector : String) (strict : Bool)
  | locatorCount (selector : String)
  | elementBoundingBox (selector : String) (strict : Bool)

/-- The extraction kind a frame query corresponds to. -/
def FrameQuery.kindName : FrameQuery → String
  | innerText _ _ => "innerText"
  | textContent _ _ => "textContent"
  | getAttribute _ _ _ => "getAttribute"
  | isVisible _ _ => "isVisible"
  | isEnabled _ _ => "isEnabled"
  | isChecked _ _ => "isChecked"
  | locatorCount _ => "count"
  | elementBoundingBox _ _ => "boundingBox"

/-- The selector a frame query runs against. -/
def FrameQuery.targetSelector : FrameQuery → String
  | innerText s _ => s
  | textContent s _ => s
  | getAttribute s _ _ => s
  | isVisible s _ => s
  | isEnabled s _ => s
  | isChecked s _ => s
  | locatorCount s => s
  | elementBoundingBox s _ => s

/-- The fixed deadline `_performExtraction` passes to `controller.run`
(milliseconds). -/
def extractionDeadline : Nat := 5000

/-- The extraction kinds `_performExtraction` accepts (its switch cases). -/
def supportedExtractions : List String :=
  ["innerText", "textContent", "getAttribute", "isVisible", "isEnabled",
   "isChecked", "count", "boundingBox"]

/-- The pure dispatch of `_performExtraction(frame, selector, extraction,
args)`: which read-only query it runs under which deadline, or the
"Unsupported extraction" failure of the default case. -/
def performExtractionQuery (selector : String) (extraction : String)
    (args : List String) : Except String (FrameQuery × Nat) :=
  if extraction == "innerText" then
    Except.ok (FrameQuery.innerText selector true, extractionDeadline)
  else if extraction == "textContent" then
    Except.ok (FrameQuery.textContent selector true, extractionDeadline)
  else if extraction == "getAttribute" then
    Except.ok (FrameQuery.getAttribute selector (jsHeadOr args "") true,
               extractionDeadline)
  else if extraction == "isVisible" then
    Except.ok (FrameQuery.isVisible selector true, extractionDeadline)
  else if extraction == "isEnabled" then
    Except.ok (FrameQuery.isEnabled selector true, extractionDeadline)
  else if extraction == "isChecked" then
    Except.ok (FrameQuery.isChecked selector true, extractionDeadline)
  else if extraction == "count" then
    Except.ok (FrameQuery.locatorCount selector, extractionDeadline)
  else if extraction == "boundingBox" then
    Except.ok (FrameQuery.elementBoundingBox selector true, extractionDeadline)
  else
    Except.error ("Unsupported extraction: " ++ extraction)

/-- `_executeUIExtraction(params)`. `runQuery` is the live page's answer to the
dispatched frame query (the extracted value rendered as a string, or a
failure such as a timeout). -/
def executeUIExtraction (pageAliases : List (Page × String)) (nextId : Nat)
    (runQuery : FrameQuery → Except String String) (now : Nat)
    (params : PerformExtractionParams) : ExecResult String :=
  if strBlank params.locator then
    { result := Except.error "Locator is required", log := [] }
  else
    let locator := params.locator.getD ""
    match frameForSelector pageAliases locator with
    | Except.error e => { result := Except.error e, log := [] }
    | Except.ok frame =>
      let frameDescription : FrameDescription :=
        { pageGuid := frame.page.guid, pageAlias := "page", framePath := [] }
      let entry : ActionInContext :=
        { frame := frameDescription
          action := { name := "extract_" ++ params.extraction, selector := locator,
                      args := params.args, signals := [] }
          startTime := now }
      let callLogId := nextId
      match performExtractionQuery locator params.extraction params.args with
      | Except.error e =>
        { result := Except.error e
          log := [LogOp.create callLogId entry,
                  LogOp.update callLogId CallLogStatus.error (some e)] }
      | Except.ok q =>
        match runQuery q.fst with
        | Except.ok value =>
          { result := Except.ok value
            log := [LogOp.create callLogId entry,
                    LogOp.update callLogId CallLogStatus.done (some value)] }
        | Except.error msg =>
          { result := Except.error msg
            log := [LogOp.create callLogId entry,
                    LogOp.update callLogId CallLogStatus.error (some msg)] }

/-- `_executeArbitraryCode(params)`. `runCode` is the settled result of
`_executePlaywrightCode(page, code)` against the given page; `Except.ok none`
models a JS result of undefined. -/
def executeArbitraryCode (pageAliases : List (Page × String)) (nextId : Nat)
    (runCode : Page → String → Except String (Option String)) (now : Nat)
    (params : ExecuteArbitraryCodeParams) : ExecResult (Option String) :=
  if strBlank params.code then
    { result := Except.error "Code is required", log := [] }
  else
    let code := params.code.getD ""
    match pageAliases with
    | [] =>
      { result := Except.error "No pages available for code execution", log := [] }
    | (page, _) :: _ =>
      let pageAlias := jsOrString (lookupAlias pageAliases page) "page"
      let frameDescription : FrameDescription :=
        { pageGuid := page.guid, pageAlias := pageAlias, framePath := [] }
      let entry : ActionInContext :=
        { frame := frameDescription
          action := { name := "execute_code", selector := "", args := [code],
                      signals := [] }
          startTime := now }
      let callLogId := nextId
      match runCode page code with
      | Except.ok value =>
        { result := Except.ok value
          log := [LogOp.create callLogId entry,
                  LogOp.update callLogId CallLogStatus.done value] }
      | Except.error msg =>
        { result := Except.error msg
          log := [LogOp.create callLogId entry,
                  LogOp.update callLogId CallLogStatus.error (some msg)] }

/-- JS `text.split("\n").length`: one more than the number of newline
characters (splitting on a nonempty separator always yields count + 1
pieces, also for the empty string). -/
def lineCount (text : String) : Nat :=
  (text.data.filter (fun c => c == '\n')).length + 1

/-- The record `generateCode` returns. -/
structure GeneratedCode where
  header : String
  footer : String
  actionTexts : List String
  text : String

/-- One entry of `languageSet()`: a registered language generator. Generator
internals (including the language generator options) are external to the
sources here, so `generate` is the abstracted outcome of
`generateCode(actions, languageGenerator, options)`; `Except.error` models the
generator throwing. -/
structure LanguageGenerator where
  id : String
  name : String
  groupName : String
  highlighter : String
  generate : List ActionInContext → Except String GeneratedCode

/-- `Source` (recorder types), as `_updateActions` populates it. -/
structure Source where
  isRecorded : Bool
  label : String
  group : String
  id : String
  text : String
  header : String
  footer : String
  actions : List String
  language : String
  highlight : List Nat
  revealLine : Option Nat

/-- The per-generator loop of `_updateActions`: each registered generator is
invoked in turn with no try/catch around `generateCode`, so a throwing
generator aborts the whole loop — the locally accumulated sources are
discarded and the exception propagates to the caller. -/
def updateActionsLoop (acts : List ActionInContext) :
    List LanguageGenerator → Except String (List Source)
  | [] => Except.ok []
  | g :: rest =>
    match g.generate acts with
    | Except.error e => Except.error e
    | Except.ok out =>
      match updateActionsLoop acts rest with
      | Except.error e => Except.error e
      | Except.ok sources =>
        Except.ok
          ({ isRecorded := true, label := g.name, group := g.groupName,
             id := g.id, text := out.text, header := out.header,
             footer := out.footer, actions := out.actionTexts,
             language := g.highlighter, highlight := [],
             revealLine := some (lineCount out.text - 1) } :: sources)

/-- Helper of `_onSignalAdded`: appends the signal to the first action of the
list whose frame is on the signal's page, leaving everything else unchanged
(`findLast` plus an in-place push, expressed on the reversed list). -/
def pushSignalToFirstMatch (pageGuid : String) (sig : Signal) :
    List ActionInContext → List ActionInContext
  | [] => []
  | a :: rest =>
    if a.frame.pageGuid == pageGuid then
      { a with action := { a.action with signals := a.action.signals ++ [sig] } }
        :: rest
    else
      a :: pushSignalToFirstMatch pageGuid sig rest

/-- `_onSignalAdded(signal)`: `this._actions.findLast(a => a.frame.pageGuid ===
signal.frame.pageGuid)` followed by `lastAction.action.signals.push(...)` when
a matching action exists. The last matching element of a list is the first
matching element of its reverse. -/
def onSignalAdded (acts : List ActionInContext) (s : SignalInContext) :
    List ActionInContext :=
  (pushSignalToFirstMatch s.frame.pageGuid s.signal acts.reverse).reverse

/-- The inbound event object `_handleUIEvent(data)` receives: an untyped
payload dispatched on the string `data.event`; each branch reads only the
parameter fields of its own kind. -/
structure EventData where
  event : String
  actionParams : PerformActionParams := {}
  extractionParams : PerformExtractionParams := {}
  codeParams : ExecuteArbitraryCodeParams := {}
  fileId : String := ""
  autoExpect : Bool := false
  mode : String := ""
  highlightSelector : Option String := none
  ariaTemplate : Option String := none

/-- The session-side environment a dispatched event executes against: the
tracked pages, the recorded actions, the registered generators, and the live
page's responses at each browser-boundary suspension point. `collapse` is the
external `collapseActions` of the recorder utilities (not among the sources
here), applied by `_updateActions` before generation. -/
structure SessionEnv where
  pageAliases : List (Page × String)
  actions : List ActionInContext := []
  generators : List LanguageGenerator := []
  collapse : List ActionInContext → List ActionInContext := id
  nextCallLogId : Nat := 0
  now : Nat := 0
  performOutcome : Except String Unit := Except.ok ()
  runQuery : FrameQuery → Except String String := fun _ => Except.ok ""
  runCode : Page → String → Except String (Option String) := fun _ _ => Except.ok none

/-- What one dispatch of `_handleUIEvent` observably does at its boundary,
when it returns normally: diagnostics written with `console.error` by a
rejection handler attached at the boundary, rejections of promises that were
discarded with `void` (these have no handler and surface as process-wide
unhandled promise rejections), and the temporary call-log operations issued. -/
structure DispatchResult where
  consoleErrors : List String := []
  unhandledRejections : List String := []
  log : List LogOp := []

/-- The event kinds `_handleUIEvent` recognizes, in dispatch order. -/
def recognizedEvents : List String :=
  ["clear", "fileChanged", "setAutoExpect", "setMode", "resume", "pause",
   "step", "highlightRequested", "performAction", "performExtraction",
   "executeArbitraryCode"]

/-- `_handleUIEvent(data)`: the if-chain over `data.event`. `Except.error`
models a synchronous throw out of the dispatcher. The `performAction` and
`performExtraction` branches evaluate `void this._executeUIAction(...)` /
`void this._executeUIExtraction(...)`: `void` discards the promise without
attaching any rejection handler, so a failure of those commands surfaces as an
unhandled promise rejection. The `executeArbitraryCode` branch attaches
`.catch(err => console.error("Failed to execute arbitrary code:", err))` and
does not re-throw. State mutations on the recorder (`clear`, `setMode`,
`resume`, `pause`, `step`, highlighting, generator selection) are calls into
components outside these sources and have no observable at this boundary. -/
def handleUIEvent (env : SessionEnv) (data : EventData) :
    Except String DispatchResult :=
  if data.event == "clear" then
    match updateActionsLoop (env.collapse []) env.generators with
    | Except.error e => Except.error e
    | Except.ok _ => Except.ok {}
  else if data.event == "fileChanged" then
    Except.ok {}
  else if data.event == "setAutoExpect" then
    match updateActionsLoop (env.collapse env.actions) env.generators with
    | Except.error e => Except.error e
    | Except.ok _ => Except.ok {}
  else if data.event == "setMode" then
    Except.ok {}
  else if data.event == "resume" then
    Except.ok {}
  else if data.event == "pause" then
    Except.ok {}
  else if data.event == "step" then
    Except.ok {}
  else if data.event == "highlightRequested" then
    Except.ok {}
  else if data.event == "performAction" then
    let r := executeUIAction env.pageAliases env.nextCallLogId
      env.performOutcome env.now data.actionParams
    Except.ok
      { unhandledRejections :=
          match r.result with
          | Except.error msg => [msg]
          | Except.ok _ => []
        log := r.log }
  else if data.event == "performExtraction" then
    let r := executeUIExtraction env.pageAliases env.nextCallLogId
      env.runQuery env.now data.extractionParams
    Except.ok
      { unhandledRejections :=
          match r.result with
          | Except.error msg => [msg]
          | Except.ok _ => []
        log := r.log }
  else if data.event == "executeArbitraryCode" then
    let r := executeArbitraryCode env.pageAliases env.nextCallLogId
      env.runCode env.now data.codeParams
    Except.ok
      { consoleErrors :=
          match r.result with
          | Except.error msg => ["Failed to execute arbitrary code: " ++ msg]
          | Except.ok _ => []
        log := r.log }
  else
    Except.error ("Unknown event: " ++ data.event)

/-- The temporary call-log discipline of one executed command: its trace is
exactly one creation (the in-progress entry) followed by exactly one update
of the same id to a terminal status — `done` when the command's promise
fulfills, `error` carrying the failure's message when it rejects, the failure
also being the command's settled result (re-raised to the immediate caller).
No further operation on the entry is issued. -/
def singleTerminalTransition {α : Type} (nextId : Nat) (r : ExecResult α) : Prop :=
  ∃ entry status payload,
    r.log = [LogOp.create nextId entry, LogOp.update nextId status payload] ∧
    ((status = CallLogStatus.done ∧ ∃ v, r.result = Except.ok v) ∨
     (status = CallLogStatus.error ∧
       ∃ msg, r.result = Except.error msg ∧ payload = some msg))

/-- A concrete tracked page, for evaluating the executors on closed inputs. -/
def pageOne : Page := { guid := "page@a1" }

/-- A session tracking exactly the one page `pageOne` under alias "page". -/
def paOne : List (Page × String) := [(pageOne, "page")]

/-- An environment with one tracked page whose browser boundary fails every
operation (an action failure such as a timeout, and a throwing code
evaluation). -/
def envOneFailing : SessionEnv :=
  { pageAliases := paOne
    nextCallLogId := 7
    now := 1000
    performOutcome := Except.error "Timeout 5000ms exceeded"
    runQuery := fun _ => Except.error "Timeout 5000ms exceeded"
    runCode := fun _ _ => Except.error "boom" }

/-- The inbound event of a failing operator click. -/
def eventFailingAction : EventData :=
  { event := "performAction"
    actionParams := { locator := some "#submit", action := "click" } }

/-- The call-log entry `_executeUIAction` registers for `eventFailingAction`
in `envOneFailing`. -/
def failingActionEntry : ActionInContext :=
  { frame := { pageGuid := "page@a1", pageAlias := "page", framePath := [] }
    action := { name := "click", selector := "#submit", signals := [],
                modifiers := some 0, button := some "left", clickCount := some 1 }
    startTime := 1000 }

/-- The call-log trace of the failing click: created in-progress, then
transitioned once to error with the failure's message. -/
def failingActionLog : List LogOp :=
  [LogOp.create 7 failingActionEntry,
   LogOp.update 7 CallLogStatus.error (some "Timeout 5000ms exceeded")]

/-- The inbound event of a failing arbitrary-code command. -/
def eventFailingCode : EventData :=
  { event := "executeArbitraryCode", codeParams := { code := some "page.title()" } }

/-- The call-log entry `_executeArbitraryCode` registers for
`eventFailingCode` in `envOneFailing`. -/
def failingCodeEntry : ActionInContext :=
  { frame := { pageGuid := "page@a1", pageAlias := "page", framePath := [] }
    action := { name := "execute_code", selector := "", args := ["page.title()"],
                signals := [] }
    startTime := 1000 }

/-- The call-log trace of the failing arbitrary-code command. -/
def failingCodeLog : List LogOp :=
  [LogOp.create 7 failingCodeEntry,
   LogOp.update 7 CallLogStatus.error (some "boom")]

/-- A registered generator that throws on every regeneration. -/
def throwingGenerator : LanguageGenerator :=
  { id := "boom-lang", name := "Boom", groupName := "Node.js",
    highlighter := "javascript", generate := fun _ => Except.error "generator exploded" }

/-- A registered generator that succeeds on every regeneration. -/
def okGenerator : LanguageGenerator :=
  { id := "ok-lang", name := "Ok", groupName := "Node.js",
    highlighter := "javascript"
    generate := fun _ =>
      Except.ok { header := "hdr", footer := "ftr", actionTexts := [], text := "hdr\nftr" } }

/-- The `Source` the loop builds from `okGenerator` when it is reached. -/
def okGeneratorSource : Source :=
  { isRecorded := true, label := "Ok", group := "Node.js", id := "ok-lang",
    text := "hdr\nftr", header := "hdr", footer := "ftr", actions := [],
    language := "javascript", highlight := [], revealLine := some 1 }

/-- A concrete recorded click on the page `page@a1`, already carrying one
attached signal. -/
def actA : ActionInContext :=
  { frame := { pageGuid := "page@a1", pageAlias := "page", framePath := [] }
    action := { name := "click", selector := "#a", signals := ["sig0"] }
    startTime := 1 }

/-- A concrete recorded fill on a different page `page@b2`. -/
def actB : ActionInContext :=
  { frame := { pageGuid := "page@b2", pageAlias := "page1", framePath := [] }
    action := { name := "fill", selector := "#b", signals := [], text := some "x" }
    startTime := 2 }

/-- A concrete navigation signal arriving on the page `page@a1`. -/
def navSignal : SignalInContext :=
  { frame := { pageGuid := "page@a1", pageAlias := "page", framePath := [] }
    signal := "nav" }

/-- Claim C1, evaluated at the failing input: for a `performAction` command
whose execution fails, `_handleUIEvent` returns normally but the failure is
not caught or logged at the dispatch boundary — the promise was discarded
with `void`, so the rejection escapes into the process-wide event loop as an
unhandled promise rejection (first conjunct, `unhandledRejections` nonempty
and `consoleErrors` empty). Only the `executeArbitraryCode` branch attaches a
rejection handler that logs a console diagnostic (second conjunct). The claim
— all three command kinds are caught and logged at the dispatch boundary,
never propagating into the process-wide event loop — holds for
`executeArbitraryCode` but fails for `performAction` (and
`performExtraction`), contradicting the source's own comments, which expect
the immediate caller to catch the re-raised failure. -/
theorem c1_rejection_escapes_dispatch_boundary :
    handleUIEvent envOneFailing eventFailingAction =
      Except.ok { consoleErrors := [],
                  unhandledRejections := ["Timeout 5000ms exceeded"],
                  log := failingActionLog } ∧
    handleUIEvent envOneFailing eventFailingCode =
      Except.ok { consoleErrors := ["Failed to execute arbitrary code: boom"],
                  unhandledRejections := [],
                  log := failingCodeLog } :=
  ⟨rfl, rfl⟩

/-- Claim C3: dispatching an inbound event whose tag is not among the eleven
recognized kinds raises a synchronous "Unknown event" protocol failure out of
`_handleUIEvent`, while the three command kinds always dispatch without a
synchronous failure — their command-execution failures are contained in the
returned dispatch record — so the protocol failure is distinguishable from
any command-execution failure. -/
theorem c3_unknown_event_fails_loudly :
    (∀ (env : SessionEnv) (data : EventData), data.event ∉ recognizedEvents →
        handleUIEvent env data = Except.error ("Unknown event: " ++ data.event)) ∧
    (∀ (env : SessionEnv) (data : EventData),
        data.event = "performAction" ∨ data.event = "performExtraction" ∨
          data.event = "executeArbitraryCode" →
        ∃ r, handleUIEvent env data = Except.ok r) := by
  constructor
  · intro env data h
    simp only [recognizedEvents, List.mem_cons, List.not_mem_nil, or_false,
      not_or] at h
    obtain ⟨h1, h2, h3, h4, h5, h6, h7, h8, h9, h10, h11⟩ := h
    simp [handleUIEvent, h1, h2, h3, h4, h5, h6, h7, h8, h9, h10, h11]
  · intro env data h
    rcases h with h | h | h <;> simp [handleUIEvent, h]

/-- Witness for C3: the concrete unrecognized tag "frobnicate" fails loudly,
while a concrete `performAction` dispatch returns normally. -/
theorem c3_witness :
    handleUIEvent { pageAliases := [] } { event := "frobnicate" } =
      Except.error "Unknown event: frobnicate" ∧
    (∃ r, handleUIEvent { pageAliases := [] } { event := "performAction" } =
      Except.ok r) :=
  ⟨c3_unknown_event_fails_loudly.1 _ _ (by decide),
   c3_unknown_event_fails_loudly.2 _ _ (Or.inl rfl)⟩

/-- Claim C4: a `performAction` or `performExtraction` whose locator is
absent or whitespace-only, and an `executeArbitraryCode` whose code is absent
or blank, fail with a descriptive validation error before anything else
happens — in particular the trace of call-log operations is empty, so no
call-log entry is ever created for the command. -/
theorem c4_validation_failure_creates_no_call_log :
    (∀ pa nid perform now params,
        strBlank (PerformActionParams.locator params) = true →
        executeUIAction pa nid perform now params =
          { result := Except.error "Locator is required", log := [] }) ∧
    (∀ pa nid runQuery now params,
        strBlank (PerformExtractionParams.locator params) = true →
        executeUIExtraction pa nid runQuery now params =
          { result := Except.error "Locator is required", log := [] }) ∧
    (∀ pa nid runCode now params,
        strBlank (ExecuteArbitraryCodeParams.code params) = true →
        executeArbitraryCode pa nid runCode now params =
          { result := Except.error "Code is required", log := [] }) := by
  refine ⟨?_, ?_, ?_⟩ <;> intro pa nid f now params h <;>
    simp [executeUIAction, executeUIExtraction, executeArbitraryCode, h]

/-- Witness for C4: a whitespace-only locator, an absent locator, and an
empty code string each fail with the validation message and an empty
call-log trace. -/
theorem c4_witness :
    executeUIAction paOne 0 (Except.ok ()) 0
        { locator := some "   ", action := "click" } =
      { result := Except.error "Locator is required", log := [] } ∧
    executeUIExtraction paOne 0 (fun _ => Except.ok "") 0
        { locator := none, extraction := "innerText" } =
      { result := Except.error "Locator is required", log := [] } ∧
    executeArbitraryCode paOne 0 (fun _ _ => Except.ok none) 0
        { code := some "" } =
      { result := Except.error "Code is required", log := [] } :=
  ⟨c4_validation_failure_creates_no_call_log.1 _ _ _ _ _ (by decide),
   c4_validation_failure_creates_no_call_log.2.1 _ _ _ _ _ (by decide),
   c4_validation_failure_creates_no_call_log.2.2 _ _ _ _ _ (by decide)⟩

/-- Claim C5: the extraction deadline is the fixed 5000-unit constant; every
extraction kind in the fixed eight-element set dispatches the corresponding
read-only frame query against the given selector under that deadline; any
kind outside the set fails with "Unsupported extraction", and inside
`_executeUIExtraction` that failure is reported through the same error path
as any other operation failure — the in-progress call-log entry transitions
to error carrying the message. -/
theorem c5_extraction_fixed_set_and_deadline :
    extractionDeadline = 5000 ∧
    (∀ selector extraction args, extraction ∈ supportedExtractions →
        ∃ q, performExtractionQuery selector extraction args =
            Except.ok (q, extractionDeadline) ∧
          FrameQuery.kindName q = extraction ∧
          FrameQuery.targetSelector q = selector) ∧
    (∀ selector extraction args, extraction ∉ supportedExtractions →
        performExtractionQuery selector extraction args =
          Except.error ("Unsupported extraction: " ++ extraction)) ∧
    (∀ pa nid runQuery now params frame,
        strBlank (PerformExtractionParams.locator params) = false →
        frameForSelector pa (params.locator.getD "") = Except.ok frame →
        params.extraction ∉ supportedExtractions →
        ∃ entry,
          executeUIExtraction pa nid runQuery now params =
            { result := Except.error
                ("Unsupported extraction: " ++ params.extraction)
              log := [LogOp.create nid entry,
                      LogOp.update nid CallLogStatus.error
                        (some ("Unsupported extraction: " ++ params.extraction))] }) := by
  refine ⟨rfl, ?_, ?_, ?_⟩
  · intro selector extraction args h
    simp only [supportedExtractions, List.mem_cons, List.not_mem_nil,
      or_false] at h
    rcases h with h | h | h | h | h | h | h | h <;> subst h <;>
      exact ⟨_, rfl, rfl, rfl⟩
  · intro selector extraction args h
    simp only [supportedExtractions, List.mem_cons, List.not_mem_nil, or_false,
      not_or] at h
    obtain ⟨n1, n2, n3, n4, n5, n6, n7, n8⟩ := h
    simp [performExtractionQuery, n1, n2, n3, n4, n5, n6, n7, n8]
  · intro pa nid runQuery now params frame h hf hu
    simp only [supportedExtractions, List.mem_cons, List.not_mem_nil, or_false,
      not_or] at hu
    obtain ⟨n1, n2, n3, n4, n5, n6, n7, n8⟩ := hu
    simp [executeUIExtraction, h, hf, performExtractionQuery,
      n1, n2, n3, n4, n5, n6, n7, n8]

/-- Witness for C5: "innerText" dispatches its query under the 5000-unit
deadline; the unrecognized kind "screenshot" fails with "Unsupported
extraction", and does so through the call-log error path. -/
theorem c5_witness :
    (∃ q, performExtractionQuery "#t" "innerText" [] =
        Except.ok (q, extractionDeadline) ∧
      FrameQuery.kindName q = "innerText" ∧
      FrameQuery.targetSelector q = "#t") ∧
    performExtractionQuery "#t" "screenshot" [] =
      Except.error "Unsupported extraction: screenshot" ∧
    (∃ entry, executeUIExtraction paOne 3 (fun _ => Except.ok "v") 5
        { locator := some "#t", extraction := "screenshot" } =
      { result := Except.error "Unsupported extraction: screenshot"
        log := [LogOp.create 3 entry,
                LogOp.update 3 CallLogStatus.error
                  (some "Unsupported extraction: screenshot")] }) :=
  ⟨c5_extraction_fixed_set_and_deadline.2.1 "#t" "innerText" [] (by decide),
   c5_extraction_fixed_set_and_deadline.2.2.1 "#t" "screenshot" [] (by decide),
   c5_extraction_fixed_set_and_deadline.2.2.2 paOne 3 _ 5 _ { page := pageOne }
     (by decide) rfl (by decide)⟩

/-- Claim C6: with no tracked pages, a `performAction` fails with the
explicit "No pages available for action execution" guard, and a
`performExtraction` fails because frame resolution reports
"no pages available"; in both paths the failure happens before any call-log
entry is created (`Recorder.frameForSelector` itself is modelled from the
spec, see `frameForSelector`). -/
theorem c6_no_pages_fails_before_call_log
    (nid now : Nat) (perform : Except String Unit)
    (runQuery : FrameQuery → Except String String)
    (actionParams : PerformActionParams)
    (extractionParams : PerformExtractionParams)
    (ha : strBlank actionParams.locator = false)
    (he : strBlank extractionParams.locator = false) :
    executeUIAction [] nid perform now actionParams =
      { result := Except.error "No pages available for action execution",
        log := [] } ∧
    frameForSelector [] (extractionParams.locator.getD "") =
      Except.error "no pages available" ∧
    executeUIExtraction [] nid runQuery now extractionParams =
      { result := Except.error "no pages available", log := [] } := by
  refine ⟨?_, rfl, ?_⟩
  · simp [executeUIAction, ha]
  · simp [executeUIExtraction, he, frameForSelector]

/-- Witness for C6: concrete commands with the locator "#b" against a
session tracking no pages. -/
theorem c6_witness :
    executeUIAction [] 0 (Except.ok ()) 0
        { locator := some "#b", action := "click" } =
      { result := Except.error "No pages available for action execution",
        log := [] } ∧
    frameForSelector [] "#b" = Except.error "no pages available" ∧
    executeUIExtraction [] 0 (fun _ => Except.ok "") 0
        { locator := some "#b", extraction := "innerText" } =
      { result := Except.error "no pages available", log := [] } :=
  c6_no_pages_fails_before_call_log 0 0 (Except.ok ()) (fun _ => Except.ok "")
    { locator := some "#b", action := "click" }
    { locator := some "#b", extraction := "innerText" } (by decide) (by decide)

/-- Claim C8: with at least one tracked page, an arbitrary-code command
always targets the first page in insertion order of the page tracking,
whatever the code says: the registered call-log entry carries that page's
guid and the command's settled result is exactly the outcome of evaluating
the code against that page. -/
theorem c8_arbitrary_code_targets_first_page
    (p : Page) (al : String) (rest : List (Page × String))
    (nid now : Nat) (runCode : Page → String → Except String (Option String))
    (params : ExecuteArbitraryCodeParams)
    (h : strBlank params.code = false) :
    ∃ entry op,
      (executeArbitraryCode ((p, al) :: rest) nid runCode now params).log =
        [LogOp.create nid entry, op] ∧
      entry.frame.pageGuid = p.guid ∧
      (executeArbitraryCode ((p, al) :: rest) nid runCode now params).result =
        runCode p (params.code.getD "") := by
  cases hrc : runCode p (params.code.getD "") with
  | ok v =>
    simp only [executeArbitraryCode, h, Bool.false_eq_true, if_false, hrc]
    exact ⟨_, _, rfl, rfl, trivial⟩
  | error e =>
    simp only [executeArbitraryCode, h, Bool.false_eq_true, if_false, hrc]
    exact ⟨_, _, rfl, rfl, trivial⟩

/-- Witness for C8: a concrete `page.title()` command against the
one-page session targets `pageOne` and returns the page's title. -/
theorem c8_witness :
    ∃ entry op,
      (executeArbitraryCode [(pageOne, "page")] 2
          (fun _ _ => Except.ok (some "Title")) 9
          { code := some "page.title()" }).log = [LogOp.create 2 entry, op] ∧
      entry.frame.pageGuid = pageOne.guid ∧
      (executeArbitraryCode [(pageOne, "page")] 2
          (fun _ _ => Except.ok (some "Title")) 9
          { code := some "page.title()" }).result = Except.ok (some "Title") :=
  c8_arbitrary_code_targets_first_page pageOne "page" [] 2 9
    (fun _ _ => Except.ok (some "Title")) { code := some "page.title()" }
    (by decide)

/-- Helper: the default case of `_buildSyntheticAction` throws for every
action name outside its seven cases. -/
theorem buildSyntheticAction_unsupported (selector actionName : String)
    (args : List String) (h : actionName ∉ supportedSyntheticActions) :
    buildSyntheticAction selector actionName args =
      Except.error ("Unsupported action: " ++ actionName) := by
  simp only [supportedSyntheticActions, List.mem_cons, List.not_mem_nil,
    or_false, not_or] at h
  obtain ⟨n1, n2, n3, n4, n5, n6, n7⟩ := h
  simp [buildSyntheticAction, n1, n2, n3, n4, n5, n6, n7]

/-- Claim C10: a `performAction` with a non-blank locator whose action kind is
outside the seven kinds `_buildSyntheticAction` accepts fails with
"Unsupported action" and creates no call-log entry (the builder runs before
the call log is reached); "hover" and "scroll" are such kinds even though the
inbound protocol type `PerformActionParams` declares them valid. -/
theorem c10_unsupported_action_creates_no_entry :
    (∀ pa nid perform now params frame,
        strBlank (PerformActionParams.locator params) = false →
        pa ≠ [] →
        frameForSelector pa (params.locator.getD "") = Except.ok frame →
        params.action ∉ supportedSyntheticActions →
        executeUIAction pa nid perform now params =
          { result := Except.error ("Unsupported action: " ++ params.action),
            log := [] }) ∧
    "hover" ∈ declaredPerformActionKinds ∧
    "scroll" ∈ declaredPerformActionKinds ∧
    "hover" ∉ supportedSyntheticActions ∧
    "scroll" ∉ supportedSyntheticActions := by
  refine ⟨?_, by decide, by decide, by decide, by decide⟩
  intro pa nid perform now params frame h hne hf hu
  have hpe : pa.isEmpty = false := by
    cases pa with
    | nil => exact absurd rfl hne
    | cons x l => rfl
  have hb := buildSyntheticAction_unsupported (params.locator.getD "")
    params.action params.args hu
  simp [executeUIAction, h, hpe, hf, hb]

/-- Witness for C10: the concrete command with locator "#submit" and the
protocol-declared kind "hover" against the one-page session. -/
theorem c10_witness :
    executeUIAction paOne 4 (Except.ok ()) 8
        { locator := some "#submit", action := "hover" } =
      { result := Except.error "Unsupported action: hover", log := [] } :=
  c10_unsupported_action_creates_no_entry.1 paOne 4 (Except.ok ()) 8
    { locator := some "#submit", action := "hover" } { page := pageOne }
    (by decide) (List.cons_ne_nil _ _) rfl (by decide)

/-- Counterexample to claim C2 as stated: the `performAction` command with
locator "#submit" and the protocol-declared action kind "hover" passes
validation (its locator is non-blank) and frame resolution (one page is
tracked and the frame resolves), yet no temporary call-log entry is ever
created for it: the synthetic-action builder throws before the call log is
reached, so the trace is empty. -/
theorem c2_counterexample :
    strBlank (some "#submit") = false ∧
    frameForSelector paOne "#submit" = Except.ok { page := pageOne } ∧
    (executeUIAction paOne 0 (Except.ok ()) 0
        { locator := some "#submit", action := "hover" }).log = [] ∧
    (executeUIAction paOne 0 (Except.ok ()) 0
        { locator := some "#submit", action := "hover" }).result =
      Except.error "Unsupported action: hover" :=
  ⟨by decide, rfl, rfl, rfl⟩

/-- Claim C2 (amended): for every operator-issued command that passes
validation, frame resolution, and — for `performAction` — synthetic-action
construction, exactly one temporary call-log entry is created (in progress,
before the underlying operation runs) and that entry transitions exactly once
to a terminal status: `done` when execution succeeds, `error` carrying the
failure's message when it fails, the failure then being re-raised to the
immediate caller; the executor issues no further transition of that entry. -/
theorem c2_call_log_single_transition :
    (∀ pa nid perform now params frame a,
        strBlank (PerformActionParams.locator params) = false →
        pa ≠ [] →
        frameForSelector pa (params.locator.getD "") = Except.ok frame →
        buildSyntheticAction (params.locator.getD "") params.action
          params.args = Except.ok a →
        singleTerminalTransition nid
          (executeUIAction pa nid perform now params)) ∧
    (∀ pa nid runQuery now params frame,
        strBlank (PerformExtractionParams.locator params) = false →
        frameForSelector pa (params.locator.getD "") = Except.ok frame →
        singleTerminalTransition nid
          (executeUIExtraction pa nid runQuery now params)) ∧
    (∀ pa nid runCode now params,
        strBlank (ExecuteArbitraryCodeParams.code params) = false →
        pa ≠ [] →
        singleTerminalTransition nid
          (executeArbitraryCode pa nid runCode now params)) := by
  refine ⟨?_, ?_, ?_⟩
  · intro pa nid perform now params frame a h hne hf hb
    have hpe : pa.isEmpty = false := by
      cases pa with
      | nil => exact absurd rfl hne
      | cons x l => rfl
    cases perform with
    | ok u =>
      simp only [singleTerminalTransition, executeUIAction, h,
        Bool.false_eq_true, if_false, hpe, hf, hb]
      exact ⟨_, _, _, rfl, Or.inl ⟨rfl, ⟨(), trivial⟩⟩⟩
    | error msg =>
      simp only [singleTerminalTransition, executeUIAction, h,
        Bool.false_eq_true, if_false, hpe, hf, hb]
      exact ⟨_, _, _, rfl, Or.inr ⟨rfl, ⟨msg, rfl, rfl⟩⟩⟩
  · intro pa nid runQuery now params frame h hf
    simp only [singleTerminalTransition, executeUIExtraction, h,
      Bool.false_eq_true, if_false, hf]
    cases hq : performExtractionQuery (params.locator.getD "")
        params.extraction params.args with
    | error e =>
      simp only [hq]
      exact ⟨_, _, _, rfl, Or.inr ⟨rfl, ⟨e, rfl, rfl⟩⟩⟩
    | ok q =>
      simp only [hq]
      cases hrq : runQuery q.fst with
      | ok v =>
        simp only [hrq]
        exact ⟨_, _, _, rfl, Or.inl ⟨rfl, ⟨v, rfl⟩⟩⟩
      | error msg =>
        simp only [hrq]
        exact ⟨_, _, _, rfl, Or.inr ⟨rfl, ⟨msg, rfl, rfl⟩⟩⟩
  · intro pa nid runCode now params h hne
    cases pa with
    | nil => exact absurd rfl hne
    | cons hd tl =>
      obtain ⟨p, al⟩ := hd
      simp only [singleTerminalTransition, executeArbitraryCode, h,
        Bool.false_eq_true, if_false]
      cases hrc : runCode p (params.code.getD "") with
      | ok v =>
        simp only [hrc]
        exact ⟨_, _, _, rfl, Or.inl ⟨rfl, ⟨v, rfl⟩⟩⟩
      | error msg =>
        simp only [hrc]
        exact ⟨_, _, _, rfl, Or.inr ⟨rfl, ⟨msg, rfl, rfl⟩⟩⟩

/-- Witness for C2 (amended): a succeeding click, a timed-out extraction and
a succeeding arbitrary-code command each create exactly one entry and
transition it exactly once. -/
theorem c2_witness :
    singleTerminalTransition 1
      (executeUIAction paOne 1 (Except.ok ()) 3
        { locator := some "#submit", action := "click" }) ∧
    singleTerminalTransition 2
      (executeUIExtraction paOne 2
        (fun _ => Except.error "Timeout 5000ms exceeded") 4
        { locator := some "#title", extraction := "innerText" }) ∧
    singleTerminalTransition 3
      (executeArbitraryCode paOne 3 (fun _ _ => Except.ok (some "T")) 5
        { code := some "page.title()" }) :=
  ⟨c2_call_log_single_transition.1 paOne 1 (Except.ok ()) 3
      { locator := some "#submit", action := "click" } { page := pageOne }
      { name := "click", selector := "#submit", signals := [],
        modifiers := some 0, button := some "left", clickCount := some 1 }
      (by decide) (List.cons_ne_nil _ _) rfl rfl,
   c2_call_log_single_transition.2.1 paOne 2
      (fun _ => Except.error "Timeout 5000ms exceeded") 4
      { locator := some "#title", extraction := "innerText" } { page := pageOne }
      (by decide) rfl,
   c2_call_log_single_transition.2.2 paOne 3 (fun _ _ => Except.ok (some "T")) 5
      { code := some "page.title()" } (by decide) (List.cons_ne_nil _ _)⟩

/-- Counterexample to claim C7 as stated: with the registered generator set
`[throwingGenerator, okGenerator]`, regeneration does not produce
`okGenerator`'s Source — the whole `_updateActions` loop aborts with the
first generator's exception — although `okGenerator` alone produces its
Source just fine. -/
theorem c7_counterexample :
    updateActionsLoop [] [throwingGenerator, okGenerator] =
      Except.error "generator exploded" ∧
    updateActionsLoop [] [okGenerator] = Except.ok [okGeneratorSource] :=
  ⟨rfl, rfl⟩

/-- Claim C7 (amended): a generator that throws during regeneration aborts
`_updateActions` — whatever generators precede it in registration order have
already been invoked successfully, the failing generator's exception becomes
the result of the whole loop, no Source list is produced at all (the
generators after it are never invoked), and the exception propagates to the
caller instead of being isolated. -/
theorem c7_generator_failure_aborts_regeneration
    (acts : List ActionInContext) (pre post : List LanguageGenerator)
    (g : LanguageGenerator) (e : String)
    (hpre : ∀ p ∈ pre, ∃ out, p.generate acts = Except.ok out)
    (hg : g.generate acts = Except.error e) :
    updateActionsLoop acts (pre ++ g :: post) = Except.error e := by
  induction pre with
  | nil => simp [updateActionsLoop, hg]
  | cons hd tl ih =>
    obtain ⟨out, hout⟩ := hpre hd (List.mem_cons_self hd tl)
    have ht := ih (fun p hp => hpre p (List.mem_cons_of_mem hd hp))
    simp [updateActionsLoop, hout, ht]

/-- Witness for C7 (amended): a healthy generator, then a throwing one, then
another healthy one — the loop result is the thrown error. -/
theorem c7_witness :
    updateActionsLoop [] [okGenerator, throwingGenerator, okGenerator] =
      Except.error "generator exploded" :=
  c7_generator_failure_aborts_regeneration [] [okGenerator] [okGenerator]
    throwingGenerator "generator exploded"
    (by
      intro p hp
      rw [List.mem_singleton] at hp
      subst hp
      exact ⟨_, rfl⟩)
    rfl

/-- Helper: a list containing no action on the signal's page passes through
the push helper unchanged. -/
theorem pushSignal_no_match (g : String) (sig : Signal)
    (l : List ActionInContext) (h : ∀ b ∈ l, b.frame.pageGuid ≠ g) :
    pushSignalToFirstMatch g sig l = l := by
  induction l with
  | nil => rfl
  | cons a rest ih =>
    have ha : (a.frame.pageGuid == g) = false :=
      beq_eq_false_iff_ne.mpr (h a (List.mem_cons_self a rest))
    simp only [pushSignalToFirstMatch, ha, Bool.false_eq_true, if_false]
    rw [ih (fun b hb => h b (List.mem_cons_of_mem a hb))]

/-- Helper: the push helper modifies exactly the first matching action,
appending the signal to its signal list and leaving everything else as is. -/
theorem pushSignal_first_match (g : String) (sig : Signal)
    (l1 l2 : List ActionInContext) (a : ActionInContext)
    (h1 : ∀ b ∈ l1, b.frame.pageGuid ≠ g) (ha : a.frame.pageGuid = g) :
    pushSignalToFirstMatch g sig (l1 ++ a :: l2) =
      l1 ++ { a with action := { a.action with
                signals := a.action.signals ++ [sig] } } :: l2 := by
  induction l1 with
  | nil =>
    simp only [List.nil_append, pushSignalToFirstMatch, ha, beq_self_eq_true,
      if_true]
  | cons b rest ih =>
    have hb : (b.frame.pageGuid == g) = false :=
      beq_eq_false_iff_ne.mpr (h1 b (List.mem_cons_self b rest))
    simp only [List.cons_append, pushSignalToFirstMatch, hb,
      Bool.false_eq_true, if_false]
    exact congrArg (fun t => b :: t)
      (ih (fun x hx => h1 x (List.mem_cons_of_mem b hx)))

/-- Claim C9: an arriving signal is appended to the end of the signal list of
the most recent recorded action whose frame is on the signal's page — every
other field of that action and every other action are unchanged, and the
order of already-attached signals is preserved; when no action on that page
exists, the action list is unchanged. -/
theorem c9_signal_appends_to_latest_same_page_action :
    (∀ (pre post : List ActionInContext) (a : ActionInContext)
        (s : SignalInContext),
        a.frame.pageGuid = s.frame.pageGuid →
        (∀ b ∈ post, b.frame.pageGuid ≠ s.frame.pageGuid) →
        onSignalAdded (pre ++ a :: post) s =
          pre ++ { a with action := { a.action with
                     signals := a.action.signals ++ [s.signal] } } :: post) ∧
    (∀ (acts : List ActionInContext) (s : SignalInContext),
        (∀ b ∈ acts, b.frame.pageGuid ≠ s.frame.pageGuid) →
        onSignalAdded acts s = acts) := by
  constructor
  · intro pre post a s ha hpost
    unfold onSignalAdded
    have hrev : (pre ++ a :: post).reverse = post.reverse ++ a :: pre.reverse := by
      simp [List.reverse_append]
    rw [hrev, pushSignal_first_match s.frame.pageGuid s.signal post.reverse
      pre.reverse a (fun b hb => hpost b (List.mem_reverse.mp hb)) ha]
    simp [List.reverse_append]
  · intro acts s h
    unfold onSignalAdded
    rw [pushSignal_no_match s.frame.pageGuid s.signal acts.reverse
      (fun b hb => h b (List.mem_reverse.mp hb))]
    exact List.reverse_reverse acts

/-- Witness for C9: a navigation signal on `page@a1` attaches to `actA` (the
most recent action on that page) in front of the unrelated `actB`, and a
signal with no same-page action leaves the list unchanged. -/
theorem c9_witness :
    onSignalAdded [actA, actB] navSignal =
      [{ actA with action := { actA.action with
           signals := actA.action.signals ++ [navSignal.signal] } }, actB] ∧
    onSignalAdded [actB] navSignal = [actB] :=
  ⟨c9_signal_appends_to_latest_same_page_action.1 [] [actB] actA navSignal
     rfl (by decide),
   c9_signal_appends_to_latest_same_page_action.2 [actB] navSignal (by decide)⟩

end RecorderSpec
